import Mathlib

/-!
Verification development for the receipt-intelligence query core
(query engine, query parser, temporal resolver, merchant normalization).

The Python sources are embedded shallowly:
* machine dates are a record of calendar fields plus microseconds within
  the day, mirroring `datetime.datetime` in UTC;
* operations that can raise in Python return `Except PyExc`;
* regular-expression searches are embedded as explicit scanner functions
  over `List Char`, faithful to the concrete patterns in the sources;
* the external language-model fallbacks are oracle parameters; the
  instantiation used in concrete runs returns no information, matching
  the behaviour of the sources when the network call fails.
-/

/-- Python exception kinds raised by the embedded code paths. -/
inductive PyExc
  | valueError
  | attributeError
  | overflowError
  | typeError
deriving DecidableEq, Repr

/-- A `datetime.datetime` value in UTC: calendar date plus the time of day
measured in microseconds since midnight (`tod`).  `replace(hour=…, minute=…,
second=…, microsecond=…)` becomes a single update of `tod`. -/
structure PyDateTime where
  year : Int
  month : Nat
  day : Nat
  tod : Nat
deriving DecidableEq, Repr

/-- Last microsecond of a day: 23:59:59.999999 as microseconds since midnight. -/
def maxTod : Nat := 86399999999

/-- Microseconds per day. -/
def usPerDay : Nat := 86400000000

/-- Gregorian leap-year rule, as used by `datetime`. -/
def isLeap (y : Int) : Bool :=
  y % 4 == 0 && (y % 100 != 0 || y % 400 == 0)

/-- Number of days of month `m` of year `y` (0 for an out-of-range month). -/
def daysInMonth (y : Int) (m : Nat) : Nat :=
  match m with
  | 1 => 31
  | 2 => if isLeap y then 29 else 28
  | 3 => 31
  | 4 => 30
  | 5 => 31
  | 6 => 30
  | 7 => 31
  | 8 => 31
  | 9 => 30
  | 10 => 31
  | 11 => 30
  | 12 => 31
  | _ => 0

/-- The `datetime(year, month, day)` constructor: midnight of the given day,
raising `ValueError` outside `datetime`'s documented ranges. -/
def pyDatetime (y : Int) (m d : Nat) : Except PyExc PyDateTime :=
  if 1 ≤ y ∧ y ≤ 9999 ∧ 1 ≤ m ∧ m ≤ 12 ∧ 1 ≤ d ∧ d ≤ daysInMonth y m then
    .ok ⟨y, m, d, 0⟩
  else
    .error .valueError

/-- Update the time of day, i.e. `replace(hour=…, minute=…, second=…,
microsecond=…)` with all four time fields given. -/
def replaceTod (t : PyDateTime) (tod : Nat) : PyDateTime :=
  { t with tod := tod }

/-- Update the day of month, i.e. `replace(day=…)`; the sources only use
`day=1`, which is valid in every month. -/
def replaceDay (t : PyDateTime) (d : Nat) : PyDateTime :=
  { t with day := d }

/-- Days since 1970-01-01 of a calendar date (civil-from-days inverse below);
the standard era-based conversion used by calendar libraries. -/
def toDays (t : PyDateTime) : Int :=
  let y : Int := if t.month ≤ 2 then t.year - 1 else t.year
  let era : Int := (if 0 ≤ y then y else y - 399) / 400
  let yoe : Int := y - era * 400
  let mp : Int := if 2 < t.month then (t.month : Int) - 3 else (t.month : Int) + 9
  let doy : Int := (153 * mp + 2) / 5 + (t.day : Int) - 1
  let doe : Int := yoe * 365 + yoe / 4 - yoe / 100 + doy
  era * 146097 + doe - 719468

/-- Calendar date from days since 1970-01-01 (inverse of `toDays`). -/
def civilFromDays (z0 : Int) : Int × Nat × Nat :=
  let z : Int := z0 + 719468
  let era : Int := (if 0 ≤ z then z else z - 146096) / 146097
  let doe : Int := z - era * 146097
  let yoe : Int := (doe - doe / 1460 + doe / 36524 - doe / 146096) / 365
  let y : Int := yoe + era * 400
  let doy : Int := doe - (365 * yoe + yoe / 4 - yoe / 100)
  let mp : Int := (5 * doy + 2) / 153
  let d : Int := doy - (153 * mp + 2) / 5 + 1
  let m : Int := if mp < 10 then mp + 3 else mp - 9
  (if m ≤ 2 then y + 1 else y, m.toNat, d.toNat)

/-- Python's `weekday()`: Monday is 0.  1970-01-01 was a Thursday (3). -/
def pyWeekday (t : PyDateTime) : Nat :=
  ((toDays t + 3).emod 7).toNat

/-- Shift a datetime by a whole number of days, keeping the time of day;
raises `OverflowError` when the result leaves `datetime`'s year range,
as `datetime ± timedelta` does. -/
def dateShift (t : PyDateTime) (delta : Int) : Except PyExc PyDateTime :=
  let c := civilFromDays (toDays t + delta)
  if 1 ≤ c.1 ∧ c.1 ≤ 9999 then
    .ok ⟨c.1, c.2.1, c.2.2, t.tod⟩
  else
    .error .overflowError

/-- `t + timedelta(days=days, microseconds=micros)` (either part may be
negative): microsecond arithmetic carries into the day count. -/
def addDelta (t : PyDateTime) (days : Int) (micros : Int) : Except PyExc PyDateTime :=
  match dateShift t (days + ((t.tod : Int) + micros).fdiv (usPerDay : Int)) with
  | .error e => .error e
  | .ok s => .ok (replaceTod s ((((t.tod : Int) + micros).emod (usPerDay : Int)).toNat))

/-- `t - timedelta(microseconds=1)` written as a borrow over the calendar
fields (equivalent to the timedelta subtraction when `t` is a valid
datetime); raises `OverflowError` below `datetime.min` exactly as Python. -/
def subOneMicro (t : PyDateTime) : Except PyExc PyDateTime :=
  if 0 < t.tod then
    .ok { t with tod := t.tod - 1 }
  else if 1 < t.day then
    .ok { t with day := t.day - 1, tod := maxTod }
  else if 1 < t.month then
    .ok { t with month := t.month - 1, day := daysInMonth t.year (t.month - 1), tod := maxTod }
  else if 1 < t.year then
    .ok ⟨t.year - 1, 12, 31, maxTod⟩
  else
    .error .overflowError

/-- Seconds since the Unix epoch of a UTC datetime (`int(dt.timestamp())`). -/
def epochSeconds (t : PyDateTime) : Int :=
  toDays t * 86400 + (t.tod / 1000000 : Nat)

/-! ## Character and substring utilities

The embedded queries are ASCII.  These helpers mirror the pieces of
Python's `str` and `re` behaviour that the sources rely on. -/

/-- ASCII lowercase, as `str.lower()` acts on the ASCII range. -/
def pyLower (c : Char) : Char :=
  if 'A' ≤ c ∧ c ≤ 'Z' then Char.ofNat (c.toNat + 32) else c

/-- Lowercase a character list. -/
def lowerChars (s : List Char) : List Char :=
  s.map pyLower

/-- Python's `\s` class over ASCII. -/
def isPySpace (c : Char) : Bool :=
  c == ' ' || c == '\t' || c == '\n' || c == '\r' || c == Char.ofNat 11 || c == Char.ofNat 12

/-- Python's `\w` class over ASCII: letters, digits, underscore. -/
def isWordChar (c : Char) : Bool :=
  c.isAlpha || c.isDigit || c == '_'

/-- Does `p` occur as a prefix of `s`? -/
def isPrefixList : List Char → List Char → Bool
  | [], _ => true
  | _ :: _, [] => false
  | p :: ps, c :: cs => p == c && isPrefixList ps cs

/-- Does `needle` occur as a contiguous substring of `hay` (Python `in`)? -/
def containsSub (needle : List Char) : List Char → Bool
  | [] => isPrefixList needle []
  | c :: cs => isPrefixList needle (c :: cs) || containsSub needle cs

/-- Substring test on strings (`needle in hay` with both already built). -/
def strContains (hay needle : String) : Bool :=
  containsSub needle.data hay.data

/-- Word-boundary condition on the left of a match: at the start of the
string or after a non-word character. -/
def boundaryLeft (prev : Option Char) : Bool :=
  match prev with
  | none => true
  | some p => !isWordChar p

/-- Word-boundary condition between a consumed word character and the rest
of the string: at the end or before a non-word character. -/
def boundaryRight (rest : List Char) : Bool :=
  match rest with
  | [] => true
  | c :: _ => !isWordChar c

/-- Search for `\b w \b` in `s` (as `re.search` of an alphanumeric literal
with word boundaries): `prev` is the character before the current position. -/
def wordSearchAux (w : List Char) : Option Char → List Char → Bool
  | _, [] => false
  | prev, c :: cs =>
    (boundaryLeft prev && isPrefixList w (c :: cs) && boundaryRight ((c :: cs).drop w.length))
      || wordSearchAux w (some c) cs

/-- Word-bounded search of a literal in a character list. -/
def wordSearch (w : List Char) (s : List Char) : Bool :=
  wordSearchAux w none s

/-! ## Merchant-name normalization

Embeds `normalize_merchant_name` from `src/utils/normalization.py`:
lowercase, delete characters outside `[a-z0-9\s]`, collapse whitespace
runs, then strip one trailing corporate/store suffix (the alternation is
sorted longest first exactly as the source sorts it), and strip again. -/

/-- Characters kept by the cleaning substitution `[^a-z0-9\s] -> ""`. -/
def keepAlnumSpace (c : Char) : Bool :=
  ('a' ≤ c && c ≤ 'z') || ('0' ≤ c && c ≤ '9') || isPySpace c

/-- Replace each whitespace character by a plain space. -/
def spacesToBlank (s : List Char) : List Char :=
  s.map (fun c => if isPySpace c then ' ' else c)

/-- Collapse runs of spaces to a single space (the `\s+ -> " "` substitution,
after `spacesToBlank`). -/
def squeezeBlanks : List Char → List Char
  | [] => []
  | a :: rest =>
    match squeezeBlanks rest with
    | [] => [a]
    | b :: tl => if a == ' ' && b == ' ' then b :: tl else a :: b :: tl

/-- Python `str.strip()` restricted to the characters present after
cleaning: drop leading and trailing spaces. -/
def stripBlanks (s : List Char) : List Char :=
  ((s.dropWhile (fun c => c == ' ')).reverse.dropWhile (fun c => c == ' ')).reverse

/-- The suffix list of `normalize_merchant_name`, in the order produced by
`sorted(suffixes, key=len, reverse=True)` (Python's stable sort). -/
def merchantSuffixes : List (List Char) :=
  [("restaurant").data, ("pharmacy").data, ("market").data, ("coffee").data,
   ("store").data, ("corp").data, ("shop").data, ("cafe").data,
   ("inc").data, ("llc").data, ("ltd").data]

/-- Does the anchored pattern `\s+(?:suffixes)$` match starting here?  After
whitespace collapsing the whitespace run is a run of spaces; the remainder
must be exactly one of the suffixes. -/
def suffixMatchHere (s : List Char) : Bool :=
  match s with
  | [] => false
  | c :: _ =>
    isPySpace c && merchantSuffixes.any (fun w => s.dropWhile isPySpace == w)

/-- Delete the leftmost (hence only) match of `\s+(?:suffixes)$`. -/
def stripOneSuffix : List Char → List Char
  | [] => []
  | c :: rest =>
    if suffixMatchHere (c :: rest) then [] else c :: stripOneSuffix rest

/-- Embedded `normalize_merchant_name` (`src/utils/normalization.py`). -/
def normalizeMerchantName (name : String) : String :=
  if name.data = [] then
    ""
  else
    let n1 := (lowerChars name.data).filter keepAlnumSpace
    let n2 := stripBlanks (squeezeBlanks (spacesToBlank n1))
    String.mk (stripBlanks (stripOneSuffix n2))

/-! ## Scanners for the concrete regular expressions of the sources

Each scanner embeds one `re.search` pattern: leftmost match, greedy
quantifiers tried longest first, `\b` as a word/non-word transition. -/

/-- Numeric value of an ASCII digit. -/
def digitVal (c : Char) : Nat := c.toNat - 48

/-- First success of `f` over a list of candidates (backtracking order). -/
def firstSome {α β : Type} (f : α → Option β) : List α → Option β
  | [] => none
  | a :: as =>
    match f a with
    | some b => some b
    | none => firstSome f as

/-- Exactly `n` digits at the front: value and remainder. -/
def exactDigits (n : Nat) (s : List Char) : Option (Nat × List Char) :=
  match n, s with
  | 0, rest => some (0, rest)
  | Nat.succ m, c :: rest =>
    if c.isDigit then
      match exactDigits m rest with
      | some (v, r) => some (digitVal c * 10 ^ m + v, r)
      | none => none
    else none
  | Nat.succ _, [] => none

/-- Candidates for `\d{1,2}`, greedy (two digits first). -/
def digits12 (s : List Char) : List (Nat × List Char) :=
  (exactDigits 2 s).toList ++ (exactDigits 1 s).toList

/-- Candidates for `\d{2,4}`, greedy (four digits first). -/
def digits24 (s : List Char) : List (Nat × List Char) :=
  (exactDigits 4 s).toList ++ (exactDigits 3 s).toList ++ (exactDigits 2 s).toList

/-- Match of `(20\d{2})-(\d{2})-(\d{2})\b` at the current position. -/
def isoHere (s : List Char) : Option (Nat × Nat × Nat) :=
  match s with
  | '2' :: '0' :: y1 :: y2 :: '-' :: m1 :: m2 :: '-' :: d1 :: d2 :: rest =>
    if y1.isDigit && y2.isDigit && m1.isDigit && m2.isDigit && d1.isDigit && d2.isDigit
        && boundaryRight rest then
      some (2000 + 10 * digitVal y1 + digitVal y2,
            10 * digitVal m1 + digitVal m2,
            10 * digitVal d1 + digitVal d2)
    else none
  | _ => none

/-- Leftmost match of `\b(20\d{2})-(\d{2})-(\d{2})\b` (tracking the
preceding character for the left boundary). -/
def isoScanAux : Option Char → List Char → Option (Nat × Nat × Nat)
  | _, [] => none
  | prev, c :: cs =>
    match (if boundaryLeft prev then isoHere (c :: cs) else none) with
    | some r => some r
    | none => isoScanAux (some c) cs

/-- Search for the ISO date pattern in a character list. -/
def isoScan (s : List Char) : Option (Nat × Nat × Nat) :=
  isoScanAux none s

/-- Match of `(\d{1,2})/(\d{1,2})/(\d{2,4})\b` at the current position. -/
def slashHere (s : List Char) : Option (Nat × Nat × Nat) :=
  firstSome (fun mr =>
    match mr.2 with
    | '/' :: r2 =>
      firstSome (fun dr =>
        match dr.2 with
        | '/' :: r4 =>
          firstSome (fun yr =>
            if boundaryRight yr.2 then some (mr.1, dr.1, yr.1) else none) (digits24 r4)
        | _ => none) (digits12 r2)
    | _ => none) (digits12 s)

/-- Leftmost match of `\b(\d{1,2})/(\d{1,2})/(\d{2,4})\b`. -/
def slashScanAux : Option Char → List Char → Option (Nat × Nat × Nat)
  | _, [] => none
  | prev, c :: cs =>
    match (if boundaryLeft prev then slashHere (c :: cs) else none) with
    | some r => some r
    | none => slashScanAux (some c) cs

/-- Search for the slash date pattern in a character list. -/
def slashScan (s : List Char) : Option (Nat × Nat × Nat) :=
  slashScanAux none s

/-- Match of `20(\d{2})` at the current position. -/
def yearHere (s : List Char) : Option Nat :=
  match s with
  | '2' :: '0' :: a :: b :: _ =>
    if a.isDigit && b.isDigit then some (2000 + 10 * digitVal a + digitVal b) else none
  | _ => none

/-- Leftmost match of `20(\d{2})` (no word boundaries): the four-digit year
as `int` of the full match. -/
def yearScan : List Char → Option Nat
  | [] => none
  | c :: cs =>
    match yearHere (c :: cs) with
    | some y => some y
    | none => yearScan cs

/-- The Temporal Resolver's `MONTHS` table in dict insertion order
(`advanced_date_resolver.py`). -/
def resolverMonths : List (String × Nat) :=
  [("january", 1), ("jan", 1), ("february", 2), ("feb", 2), ("march", 3), ("mar", 3),
   ("april", 4), ("apr", 4), ("may", 5), ("june", 6), ("jun", 6), ("july", 7), ("jul", 7),
   ("august", 8), ("aug", 8), ("september", 9), ("sep", 9), ("sept", 9),
   ("october", 10), ("oct", 10), ("november", 11), ("nov", 11), ("december", 12), ("dec", 12)]

/-- The resolver's month names sorted by length descending (Python's stable
sort of the dict keys), the alternation order of the textual-date pattern. -/
def resolverMonthsSorted : List (String × Nat) :=
  [("september", 9), ("february", 2), ("november", 11), ("december", 12),
   ("january", 1), ("october", 10), ("august", 8), ("march", 3), ("april", 4),
   ("june", 6), ("july", 7), ("sept", 9), ("jan", 1), ("feb", 2), ("mar", 3),
   ("apr", 4), ("may", 5), ("jun", 6), ("jul", 7), ("aug", 8), ("sep", 9),
   ("oct", 10), ("nov", 11), ("dec", 12)]

/-- The Query Parser's own `months` table (`query_parser.py`, no `sept`). -/
def parserMonths : List (String × Nat) :=
  [("january", 1), ("jan", 1), ("february", 2), ("feb", 2), ("march", 3), ("mar", 3),
   ("april", 4), ("apr", 4), ("may", 5), ("june", 6), ("jun", 6), ("july", 7), ("jul", 7),
   ("august", 8), ("aug", 8), ("september", 9), ("sep", 9),
   ("october", 10), ("oct", 10), ("november", 11), ("nov", 11), ("december", 12), ("dec", 12)]

/-- The parser's month names sorted by length descending (stable). -/
def parserMonthsSorted : List (String × Nat) :=
  [("september", 9), ("february", 2), ("november", 11), ("december", 12),
   ("january", 1), ("october", 10), ("august", 8), ("march", 3), ("april", 4),
   ("june", 6), ("july", 7), ("jan", 1), ("feb", 2), ("mar", 3),
   ("apr", 4), ("may", 5), ("jun", 6), ("jul", 7), ("aug", 8), ("sep", 9),
   ("oct", 10), ("nov", 11), ("dec", 12)]

/-- First month of a table whose name occurs word-bounded in the query
(the `for name, num in months.items(): if re.search(r'\b'+name+r'\b', …)`
loops). -/
def monthFind (table : List (String × Nat)) (s : List Char) : Option Nat :=
  firstSome (fun p => if wordSearch p.1.data s then some p.2 else none) table

/-- General word boundary `\b` between a previous character and the rest:
exactly one side is a word character. -/
def boundaryBetween (prev : Option Char) (rest : List Char) : Bool :=
  let l := match prev with
    | none => false
    | some p => isWordChar p
  let r := match rest with
    | [] => false
    | c :: _ => isWordChar c
  l != r

/-- Candidates (previous character, remainder) for the optional ordinal
suffix `(?:st|nd|rd|th)?`, attempted before the empty alternative. -/
def ordinalCands (prev : Char) (s : List Char) : List (Char × List Char) :=
  (([("st"), ("nd"), ("rd"), ("th")].filterMap (fun w =>
      if isPrefixList w.data s then some (w.data.getLastD 'h', s.drop 2) else none)))
    ++ [(prev, s)]

/-- Candidates for the optional comma `(?:,)?`. -/
def commaCands (prev : Char) (s : List Char) : List (Char × List Char) :=
  (match s with
   | ',' :: rest => [(',', rest)]
   | _ => []) ++ [(prev, s)]

/-- Candidates for greedy `\s*`: longest run of whitespace first, down to
the empty run. -/
def wsStarCands (prev : Char) (s : List Char) : List (Char × List Char) :=
  let run := s.takeWhile isPySpace
  (List.range (run.length + 1)).reverse.map (fun k =>
    (if k = 0 then prev else ' ', s.drop k))

/-- Tail of the textual-date pattern after the day digits:
`(?:st|nd|rd|th)?(?:,)?\s*(20\d{2})?\b`, returning the optional year. -/
def textualTail (prev : Char) (s : List Char) : Option (Option Nat) :=
  firstSome (fun oc =>
    firstSome (fun cc =>
      firstSome (fun wc =>
        match yearHere wc.2 with
        | some y =>
          if boundaryRight (wc.2.drop 4) then
            some (some y)
          else
            if boundaryBetween (some wc.1) wc.2 then some none else none
        | none =>
          if boundaryBetween (some wc.1) wc.2 then some none else none)
        (wsStarCands cc.1 cc.2))
      (commaCands oc.1 oc.2))
    (ordinalCands prev s)

/-- Match of the textual-date pattern
`\b(month)\s+(\d{1,2})(?:st|nd|rd|th)?(?:,)?\s*(20\d{2})?\b` at the current
position, for a given month alternation table. -/
def textualHere (table : List (String × Nat)) (s : List Char) : Option (Nat × Nat × Option Nat) :=
  firstSome (fun p =>
    if isPrefixList p.1.data s then
      let r1 := s.drop p.1.data.length
      let sp := r1.takeWhile isPySpace
      if sp.length = 0 then none
      else
        let r2 := r1.drop sp.length
        firstSome (fun dr =>
          let lastDigit := (r2.take (r2.length - dr.2.length)).getLastD '0'
          match textualTail lastDigit dr.2 with
          | some y => some (p.2, dr.1, y)
          | none => none) (digits12 r2)
    else none) table

/-- Leftmost match of the textual-date pattern. -/
def textualScanAux (table : List (String × Nat)) :
    Option Char → List Char → Option (Nat × Nat × Option Nat)
  | _, [] => none
  | prev, c :: cs =>
    match (if boundaryLeft prev then textualHere table (c :: cs) else none) with
    | some r => some r
    | none => textualScanAux table (some c) cs

/-- Search for the textual-date pattern in a character list. -/
def textualScan (table : List (String × Nat)) (s : List Char) : Option (Nat × Nat × Option Nat) :=
  textualScanAux table none s

/-- Match of `(?:last|past)\s+(\d+)\s+days?` at the current position. -/
def lastNDaysHere (s : List Char) : Option Nat :=
  firstSome (fun w =>
    if isPrefixList w s then
      let r1 := (s.drop 4)
      let sp1 := r1.takeWhile isPySpace
      if sp1.length = 0 then none
      else
        let r2 := r1.drop sp1.length
        let ds := r2.takeWhile Char.isDigit
        if ds.length = 0 then none
        else
          let r3 := r2.drop ds.length
          let sp2 := r3.takeWhile isPySpace
          if sp2.length = 0 then none
          else
            let r4 := r3.drop sp2.length
            if isPrefixList (("day").data) r4 then
              some (ds.foldl (fun acc c => acc * 10 + digitVal c) 0)
            else none
    else none) [("last").data, ("past").data]

/-- Leftmost match of `(?:last|past)\s+(\d+)\s+days?`. -/
def lastNDaysScan : List Char → Option Nat
  | [] => none
  | c :: cs =>
    match lastNDaysHere (c :: cs) with
    | some n => some n
    | none => lastNDaysScan cs

/-- Match of `q([1-4])\s*(20\d{2})?` at the current position. -/
def quarterHere (s : List Char) : Option (Nat × Option Nat) :=
  match s with
  | 'q' :: c :: rest =>
    if '1' ≤ c && c ≤ '4' then
      let r2 := rest.drop ((rest.takeWhile isPySpace).length)
      match yearHere r2 with
      | some y => some (digitVal c, some y)
      | none => some (digitVal c, none)
    else none
  | _ => none

/-- Leftmost match of the quarter pattern. -/
def quarterScan : List Char → Option (Nat × Option Nat)
  | [] => none
  | c :: cs =>
    match quarterHere (c :: cs) with
    | some r => some r
    | none => quarterScan cs

/-! ## Temporal Resolver strategies

Embedding of `TemporalQueryResolver` (`src/query/advanced_date_resolver.py`).
Each `_try_*` strategy returns `Except PyExc (Option DateRange)`: `.ok none`
when the strategy does not fire, `.error` when the Python code would raise
out of it (none of the strategy bodies catches the `datetime` constructor). -/

/-- A resolved `{start, end}` range (the dict of ISO strings in the source;
the serialization to ISO strings is injective and omitted). -/
structure DateRange where
  rangeStart : PyDateTime
  rangeEnd : PyDateTime
deriving DecidableEq, Repr

/-- `_format_single_day`: 00:00:00.000000 to 23:59:59.999999 of one day. -/
def formatSingleDay (t : PyDateTime) : DateRange :=
  ⟨replaceTod t 0, replaceTod t maxTod⟩

/-- `_format_date_range`: normalize both edges of a multi-day range. -/
def formatDateRange (s e : PyDateTime) : DateRange :=
  ⟨replaceTod s 0, replaceTod e maxTod⟩

/-- `_try_iso_date`. -/
def tryIsoDate (q : List Char) : Except PyExc (Option DateRange) :=
  match isoScan q with
  | none => .ok none
  | some (y, m, d) =>
    match pyDatetime y m d with
    | .error e => .error e
    | .ok t => .ok (some (formatSingleDay t))

/-- `_try_slash_date` (two-digit years are moved into the 2000s). -/
def trySlashDate (q : List Char) : Except PyExc (Option DateRange) :=
  match slashScan q with
  | none => .ok none
  | some (m, d, y) =>
    let y2 : Nat := if y < 100 then y + 2000 else y
    match pyDatetime y2 m d with
    | .error e => .error e
    | .ok t => .ok (some (formatSingleDay t))

/-- `_try_textual_date`: `Month Day[, Year]`; with the year omitted it is
inferred from the reference date, rolling back one year when the month is
numerically in the future. -/
def tryTextualDate (q : List Char) (now : PyDateTime) : Except PyExc (Option DateRange) :=
  match textualScan resolverMonthsSorted q with
  | none => .ok none
  | some (m, d, yOpt) =>
    let y : Int :=
      match yOpt with
      | some y => (y : Int)
      | none => if now.month < m then now.year - 1 else now.year
    match pyDatetime y m d with
    | .error e => .error e
    | .ok t => .ok (some (formatSingleDay t))

/-- `_get_month_range`: first instant of a month to its last microsecond. -/
def getMonthRange (y : Int) (m : Nat) : Except PyExc (PyDateTime × PyDateTime) :=
  match pyDatetime y m 1 with
  | .error e => .error e
  | .ok s =>
    match (if m = 12 then pyDatetime (y + 1) 1 1 else pyDatetime y (m + 1) 1) with
    | .error e => .error e
    | .ok nxt =>
      match subOneMicro nxt with
      | .error e => .error e
      | .ok e2 => .ok (s, e2)

/-- `_try_month_only`: month name with optional `20\d{2}` year; without a
year, a widened range over the reference year and the five prior years. -/
def tryMonthOnly (q : List Char) (now : PyDateTime) : Except PyExc (Option DateRange) :=
  match monthFind resolverMonths q with
  | none => .ok none
  | some m =>
    match yearScan q with
    | some y =>
      match getMonthRange (y : Int) m with
      | .error e => .error e
      | .ok p => .ok (some ⟨p.1, p.2⟩)
    | none =>
      match pyDatetime (now.year - 5) m 1 with
      | .error e => .error e
      | .ok s =>
        match (if m = 12 then pyDatetime (now.year + 1) 1 1 else pyDatetime now.year (m + 1) 1) with
        | .error e => .error e
        | .ok nxt =>
          match subOneMicro nxt with
          | .error e => .error e
          | .ok e2 => .ok (some ⟨s, e2⟩)

/-- `_try_relative_timeframe`: today, yesterday, last/this week, last/this
month, last N days, last/this year.  Open-ended expressions end at the
reference instant `now` itself. -/
def tryRelativeTimeframe (q : List Char) (now : PyDateTime) : Except PyExc (Option DateRange) :=
  if containsSub (("today").data) q then
    .ok (some ⟨replaceTod now 0, now⟩)
  else if containsSub (("yesterday").data) q then
    match addDelta now (-1) 0 with
    | .error e => .error e
    | .ok t => .ok (some (formatSingleDay t))
  else if containsSub (("last week").data) q then
    match addDelta now (-((pyWeekday now : Int) + 7)) 0 with
    | .error e => .error e
    | .ok t0 =>
      let s := replaceTod t0 0
      match addDelta s 6 86399999999 with
      | .error e => .error e
      | .ok e1 => .ok (some ⟨s, e1⟩)
  else if containsSub (("this week").data) q then
    match addDelta now (-(pyWeekday now : Int)) 0 with
    | .error e => .error e
    | .ok t0 => .ok (some ⟨replaceTod t0 0, now⟩)
  else if containsSub (("last month").data) q then
    let ftm := replaceTod (replaceDay now 1) 0
    match subOneMicro ftm with
    | .error e => .error e
    | .ok ldlm => .ok (some ⟨replaceTod (replaceDay ldlm 1) 0, ldlm⟩)
  else if containsSub (("this month").data) q then
    .ok (some ⟨replaceTod (replaceDay now 1) 0, now⟩)
  else
    match lastNDaysScan q with
    | some n =>
      match addDelta now (-(n : Int)) 0 with
      | .error e => .error e
      | .ok t0 => .ok (some ⟨replaceTod t0 0, now⟩)
    | none =>
      if containsSub (("last year").data) q then
        match pyDatetime (now.year - 1) 1 1 with
        | .error e => .error e
        | .ok s =>
          match pyDatetime (now.year - 1) 12 31 with
          | .error e => .error e
          | .ok e1 => .ok (some ⟨s, replaceTod e1 maxTod⟩)
      else if containsSub (("this year").data) q then
        match pyDatetime now.year 1 1 with
        | .error e => .error e
        | .ok s => .ok (some ⟨s, now⟩)
      else
        .ok none

/-- `_thanksgiving_date`: fourth Thursday of November. -/
def thanksgivingDate (y : Int) : Except PyExc PyDateTime :=
  match pyDatetime y 11 1 with
  | .error e => .error e
  | .ok nov1 =>
    let daysUntilThursday : Int := (3 - (pyWeekday nov1 : Int)).emod 7
    match dateShift nov1 daysUntilThursday with
    | .error e => .error e
    | .ok firstThursday => dateShift firstThursday 21

/-- `_memorial_day`: last Monday of May. -/
def memorialDay (y : Int) : Except PyExc PyDateTime :=
  match pyDatetime y 6 1 with
  | .error e => .error e
  | .ok june1 =>
    match dateShift june1 (-1) with
    | .error e => .error e
    | .ok lastMay =>
      let daysBack : Int := ((pyWeekday lastMay : Int) - 0).emod 7
      dateShift lastMay (-daysBack)

/-- `_labor_day`: first Monday of September. -/
def laborDay (y : Int) : Except PyExc PyDateTime :=
  match pyDatetime y 9 1 with
  | .error e => .error e
  | .ok sep1 =>
    let daysUntilMonday : Int := (0 - (pyWeekday sep1 : Int)).emod 7
    dateShift sep1 daysUntilMonday

/-- The `HOLIDAYS` table in dict insertion order. -/
def holidayTable : List (String × (Int → Except PyExc PyDateTime)) :=
  [(("thanksgiving"), thanksgivingDate),
   (("christmas"), fun y => pyDatetime y 12 25),
   (("new years"), fun y => pyDatetime y 1 1),
   (("new year"), fun y => pyDatetime y 1 1),
   (("black friday"), fun y =>
      match thanksgivingDate y with
      | .error e => .error e
      | .ok t => dateShift t 1),
   (("cyber monday"), fun y =>
      match thanksgivingDate y with
      | .error e => .error e
      | .ok t => dateShift t 4),
   (("memorial day"), memorialDay),
   (("labor day"), laborDay),
   (("fourth of july"), fun y => pyDatetime y 7 4),
   (("halloween"), fun y => pyDatetime y 10 31)]

/-- Holiday-loop body of `_try_named_period` once a holiday matched. -/
def namedPeriodForHoliday (q : List Char) (hd : PyDateTime) : Except PyExc (Option DateRange) :=
  if containsSub (("week before").data) q then
    match dateShift hd (-7) with
    | .error e => .error e
    | .ok s =>
      match dateShift hd (-1) with
      | .error e => .error e
      | .ok e1 => .ok (some (formatDateRange s e1))
  else if containsSub (("week after").data) q || containsSub (("week following").data) q then
    match dateShift hd 1 with
    | .error e => .error e
    | .ok s =>
      match dateShift hd 7 with
      | .error e => .error e
      | .ok e1 => .ok (some (formatDateRange s e1))
  else if containsSub (("week").data) q || containsSub (("weekend").data) q then
    match dateShift hd (-(pyWeekday hd : Int)) with
    | .error e => .error e
    | .ok s =>
      match dateShift s 6 with
      | .error e => .error e
      | .ok e1 => .ok (some (formatDateRange s e1))
  else
    .ok (some (formatSingleDay hd))

/-- Holiday loop of `_try_named_period`: first table entry whose name is a
substring of the query. -/
def holidayLoop (q : List Char) (now : PyDateTime) :
    List (String × (Int → Except PyExc PyDateTime)) → Except PyExc (Option DateRange)
  | [] => .ok none
  | (name, dateFn) :: rest =>
    if containsSub name.data q then
      let year : Int :=
        match yearScan q with
        | some y => (y : Int)
        | none => now.year
      match dateFn year with
      | .error e => .error e
      | .ok hd => namedPeriodForHoliday q hd
    else
      holidayLoop q now rest

/-- `_try_named_period`: calendar quarters, then the holiday table. -/
def tryNamedPeriod (q : List Char) (now : PyDateTime) : Except PyExc (Option DateRange) :=
  match quarterScan q with
  | some (quarter, yOpt) =>
    let year : Int :=
      match yOpt with
      | some y => (y : Int)
      | none => now.year
    let startMonth : Nat := (quarter - 1) * 3 + 1
    let endMonth : Nat := quarter * 3
    match pyDatetime year startMonth 1 with
    | .error e => .error e
    | .ok s =>
      if endMonth = 12 then
        match pyDatetime year 12 31 with
        | .error e => .error e
        | .ok e1 => .ok (some ⟨s, replaceTod e1 maxTod⟩)
      else
        match pyDatetime year (endMonth + 1) 1 with
        | .error e => .error e
        | .ok nxt =>
          match subOneMicro nxt with
          | .error e => .error e
          | .ok e1 => .ok (some ⟨s, e1⟩)
  | none => holidayLoop q now holidayTable

/-- Remainder of `s` after the first occurrence of `needle`
(`s.split(needle, 1)[1]` when the needle occurs). -/
def afterFirst (needle : List Char) : List Char → Option (List Char)
  | [] => if isPrefixList needle [] then some [] else none
  | c :: cs =>
    if isPrefixList needle (c :: cs) then some ((c :: cs).drop needle.length)
    else afterFirst needle cs

/-- Python `str.strip()`: drop leading and trailing whitespace. -/
def stripWs (s : List Char) : List Char :=
  ((s.dropWhile isPySpace).reverse.dropWhile isPySpace).reverse

/-- Lazy tail of the `between` pattern: the shortest non-empty `(.+?)`
followed by a whitespace character or the end of the string. -/
def betweenSecond (s : List Char) : Option (List Char) :=
  firstSome (fun k =>
    let b := s.take k
    let rest := s.drop k
    if b.length = k && (b.all (fun c => c != '\n')) &&
        (match rest with
         | [] => true
         | c :: _ => isPySpace c) then
      some b
    else none)
    ((List.range s.length).map (fun i => i + 1))

/-- After the first group candidate: `\s+and\s+` then the second group. -/
def betweenAfterFirstGroup (s : List Char) : Option (List Char) :=
  let sp1 := s.takeWhile isPySpace
  if sp1.length = 0 then none
  else
    let r := s.drop sp1.length
    if isPrefixList (("and").data) r then
      let r2 := r.drop 3
      let sp2 := r2.takeWhile isPySpace
      if sp2.length = 0 then none
      else betweenSecond (r2.drop sp2.length)
    else none

/-- Match of `between\s+(.+?)\s+and\s+(.+?)(?:\s|$)` after the literal
`between`: the first group is lazy, so the shortest viable prefix wins. -/
def betweenGroups (s : List Char) : Option (List Char × List Char) :=
  let sp := s.takeWhile isPySpace
  if sp.length = 0 then none
  else
    let r := s.drop sp.length
    firstSome (fun k =>
      let a := r.take k
      if a.length = k && (a.all (fun c => c != '\n')) then
        match betweenAfterFirstGroup (r.drop k) with
        | some b => some (a, b)
        | none => none
      else none)
      ((List.range r.length).map (fun i => i + 1))

/-- Leftmost occurrence of the `between … and …` pattern. -/
def betweenScan : List Char → Option (List Char × List Char)
  | [] => none
  | c :: cs =>
    if isPrefixList (("between").data) (c :: cs) then
      match betweenGroups ((c :: cs).drop 7) with
      | some r => some r
      | none => betweenScan cs
    else betweenScan cs

/-- The `since` clause's parsed date, when the query contains `since` and
the external date parser accepts the stripped remainder (`none` models the
caught exception, which lets the source fall through to `between`). -/
def sinceParsed (du : String → Option PyDateTime) (q : List Char) : Option PyDateTime :=
  if containsSub (("since").data) q then
    match afterFirst (("since").data) q with
    | none => none
    | some rest => du (String.mk (stripWs rest))
  else none

/-- `_try_contextual_range`: `since <date>` (end anchored at the reference
instant, start as parsed) and `between <a> and <b>` (both edges normalized).
`du` is the external `dateutil.parser.parse(…, fuzzy=True)` capability;
`none` models its exceptions, which the source catches and logs. -/
def tryContextualRange (du : String → Option PyDateTime) (q : List Char)
    (now : PyDateTime) : Except PyExc (Option DateRange) :=
  match sinceParsed du q with
  | some parsed => .ok (some ⟨parsed, now⟩)
  | none =>
    match betweenScan q with
    | none => .ok none
    | some (a, b) =>
      match du (String.mk (stripWs a)), du (String.mk (stripWs b)) with
      | some s, some e => .ok (some (formatDateRange s e))
      | _, _ => .ok none

/-- `_try_llm_extraction`: the external model returns a strict
`{start, end}` pair or nothing.  The source re-parses the ISO day strings
and widens them to day boundaries: `replace(hour=0, minute=0, second=0)`
on the start (the microsecond field is untouched) and the last microsecond
on the end.  Exceptions are caught and give `none`. -/
def tryLlmExtraction (llm : String → Option (PyDateTime × PyDateTime))
    (q : String) : Except PyExc (Option DateRange) :=
  match llm q with
  | some (s, e) => .ok (some ⟨replaceTod s (s.tod % 1000000), replaceTod e maxTod⟩)
  | none => .ok none

/-- `resolve_date_range`: the ordered strategy chain, first hit wins.
Strategies receive the lowercased query; the LLM fallback receives the
original text. -/
def resolveDateRange (du : String → Option PyDateTime)
    (llm : String → Option (PyDateTime × PyDateTime))
    (q : String) (now : PyDateTime) : Except PyExc (Option DateRange) :=
  let ql := lowerChars q.data
  match tryIsoDate ql with
  | .error e => .error e
  | .ok (some r) => .ok (some r)
  | .ok none =>
    match trySlashDate ql with
    | .error e => .error e
    | .ok (some r) => .ok (some r)
    | .ok none =>
      match tryTextualDate ql now with
      | .error e => .error e
      | .ok (some r) => .ok (some r)
      | .ok none =>
        match tryMonthOnly ql now with
        | .error e => .error e
        | .ok (some r) => .ok (some r)
        | .ok none =>
          match tryRelativeTimeframe ql now with
          | .error e => .error e
          | .ok (some r) => .ok (some r)
          | .ok none =>
            match tryNamedPeriod ql now with
            | .error e => .error e
            | .ok (some r) => .ok (some r)
            | .ok none =>
              match tryContextualRange du ql now with
              | .error e => .error e
              | .ok (some r) => .ok (some r)
              | .ok none => tryLlmExtraction llm q

/-! ## Query Parser

Embedding of `QueryParser` (`src/query/query_parser.py`).  The classifier
regexes are encoded as sequences of pattern atoms interpreted by a small
backtracking matcher; the LLM enrichment step is an oracle parameter. -/

/-- An atom of one classifier regex: literal text, `.*`, an alternation of
literals, `\d+`, `\d{n}`, or an optional literal. -/
inductive Pat
  | lit (s : String)
  | dotStar
  | altStrs (xs : List String)
  | digitsPlus
  | digitsN (n : Nat)
  | optStr (s : String)

/-- Does `s` avoid the newline character (the only character `.` refuses)? -/
def noNewline (s : List Char) : Bool :=
  s.all (fun c => c != '\n')

/-- Backtracking prefix matcher for a sequence of atoms.  `digitsPlus` is
taken maximally; in every pattern of the classifier table the atom after
`\d+` cannot consume a digit, so the maximal munch is equivalent to the
regex's greedy-with-backtracking behaviour. -/
def matchPats : List Pat → List Char → Bool
  | [], _ => true
  | .lit w :: ps, s => isPrefixList w.data s && matchPats ps (s.drop w.data.length)
  | .altStrs xs :: ps, s =>
    xs.any (fun w => isPrefixList w.data s && matchPats ps (s.drop w.data.length))
  | .dotStar :: ps, s =>
    (List.range (s.length + 1)).any (fun k => noNewline (s.take k) && matchPats ps (s.drop k))
  | .digitsPlus :: ps, s =>
    let ds := s.takeWhile Char.isDigit
    decide (1 ≤ ds.length) && matchPats ps (s.drop ds.length)
  | .digitsN n :: ps, s =>
    let ds := s.take n
    decide (ds.length = n) && ds.all Char.isDigit && matchPats ps (s.drop n)
  | .optStr w :: ps, s =>
    (isPrefixList w.data s && matchPats ps (s.drop w.data.length)) || matchPats ps s

/-- `re.search` of an atom sequence: a match starting anywhere. -/
def searchPats (ps : List Pat) (s : List Char) : Bool :=
  (List.range (s.length + 1)).any (fun i => matchPats ps (s.drop i))

/-- The twelve full month names (alternation used by two classifier rules). -/
def fullMonthNames : List String :=
  [("january"), ("february"), ("march"), ("april"), ("may"), ("june"), ("july"),
   ("august"), ("september"), ("october"), ("november"), ("december")]

/-- `self.query_patterns`, in dict insertion order: each intent class with
its regex list. -/
def queryPatternTable : List (String × List (List Pat)) :=
  [(("temporal"),
    [[.lit ("how much"), .dotStar, .lit (" "), .altStrs [("in"), ("during"), ("for")],
      .lit (" "), .altStrs fullMonthNames],
     [.lit ("how much"), .dotStar, .lit (" "), .altStrs [("last"), ("this"), ("past")],
      .lit (" "), .altStrs [("week"), ("month"), ("year")]],
     [.lit ("show me"), .dotStar, .lit (" "), .altStrs fullMonthNames],
     [.lit ("what did i buy "), .altStrs [("last"), ("this"), ("past")],
      .lit (" "), .altStrs [("week"), ("month"), ("year")]],
     [.altStrs [("in"), ("during")], .lit (" 20"), .digitsN 2]]),
   (("merchant"),
    [[.lit ("show me"), .dotStar, .lit (" "), .altStrs [("from"), ("at")], .lit (" "), .dotStar],
     [.lit ("find all"), .dotStar, .lit (" receipt"), .optStr ("s"), .lit (" "),
      .altStrs [("from"), ("at")], .lit (" "), .dotStar],
     [.lit ("how much"), .dotStar, .lit (" "), .altStrs [("at"), ("from")], .lit (" "), .dotStar]]),
   (("category"),
    [[.lit ("how much"), .dotStar, .lit (" "),
      .altStrs [("coffee shops"), ("restaurants"), ("groceries"), ("electronics")]],
     [.lit ("show me"), .dotStar, .lit (" "),
      .altStrs [("electronics"), ("groceries"), ("pharmacy"), ("health")]],
     [.lit ("what"), .altStrs [("\x27s"), ("\x27s")], .dotStar, .lit (" "),
      .altStrs [("total"), ("total spending")], .lit (" "), .altStrs [("at"), ("in")],
      .lit (" "), .altStrs [("restaurants"), ("coffee shops")]],
     [.lit ("list all"), .dotStar, .lit (" "), .altStrs [("groceries"), ("electronics")]]]),
   (("amount"),
    [[.lit ("over $"), .digitsPlus],
     [.lit ("under $"), .digitsPlus],
     [.lit ("between $"), .digitsPlus, .lit (" and $"), .digitsPlus],
     [.lit ("more than $"), .digitsPlus],
     [.lit ("less than $"), .digitsPlus]]),
   (("item_specific"),
    [[.lit ("find"), .dotStar, .lit (" with warranty")],
     [.lit ("show me"), .dotStar, .lit (" "),
      .altStrs [("phone"), ("laptop"), ("tv"), ("tablet")]],
     [.lit ("list all"), .dotStar, .lit (" "),
      .altStrs [("vitamins"), ("medicine"), ("supplements")]]]),
   (("aggregation"),
    [[.lit ("how much"), .dotStar, .lit (" "), .altStrs [("total"), ("sum")]],
     [.lit ("what\x27s my total")],
     [.lit ("average")],
     [.lit ("count")]])]

/-- `_classify_query`: first intent class with a matching pattern,
`general` otherwise. -/
def classifyQuery (q : String) : String :=
  let ql := lowerChars q.data
  match firstSome (fun p => if p.2.any (fun ps => searchPats ps ql) then some p.1 else none)
      queryPatternTable with
  | some t => t
  | none => ("general")

/-- `_extract_metric`: tax, subtotal, word-bounded tip, else total. -/
def extractMetric (q : String) : String :=
  let ql := lowerChars q.data
  if containsSub (("tax").data) ql then ("tax")
  else if containsSub (("subtotal").data) ql then ("subtotal")
  else if wordSearch (("tip").data) ql then ("tip")
  else ("total")

/-- `_extract_categories`: the category mapping in dict order, substring
containment on the lowercased query. -/
def extractCategories (q : String) : List String :=
  let ql := lowerChars q.data
  ([(("coffee shops"), ("coffee_shop")), (("restaurants"), ("restaurant")),
    (("groceries"), ("groceries")), (("electronics"), ("electronics")),
    (("pharmacy"), ("pharmacy")), (("health"), ("pharmacy")),
    (("treats"), ("treats"))].filterMap
    (fun p => if containsSub p.1.data ql then some p.2 else none))

/-- `_extract_payment_details`: payment method and card network; a network
without an explicit method implies credit. -/
def extractPaymentDetails (q : String) : Option String × Option String :=
  let ql := lowerChars q.data
  if containsSub (("apple pay").data) ql then (some ("apple_pay"), none)
  else if containsSub (("google pay").data) ql then (some ("google_pay"), none)
  else if wordSearch (("cash").data) ql then (some ("cash"), none)
  else
    let m0 : Option String :=
      if wordSearch (("debit").data) ql then some ("debit") else none
    let m1 : Option String :=
      if wordSearch (("credit").data) ql then some ("credit") else m0
    let network : Option String :=
      if wordSearch (("visa").data) ql then some ("visa")
      else if wordSearch (("mastercard").data) ql then some ("mastercard")
      else if wordSearch (("amex").data) ql || wordSearch (("american express").data) ql then
        some ("amex")
      else if wordSearch (("discover").data) ql then some ("discover")
      else none
    match network with
    | some n => (some (m1.getD ("credit")), some n)
    | none => (m1, none)

/-- Plain word-bounded search for any word of a list. -/
def searchWordsFrom (ws : List (List Char)) : Option Char → List Char → Bool
  | _, [] => false
  | prev, c :: cs =>
    (ws.any (fun w => boundaryLeft prev && isPrefixList w (c :: cs)
        && boundaryRight ((c :: cs).drop w.length)))
      || searchWordsFrom ws (some c) cs

/-- Word-bounded search for a word of `ws` followed (after anything) by a
word of `ks`, i.e. `\b(ws)\b.*\b(ks)\b` for word alternations. -/
def searchWordsThen (ws ks : List (List Char)) : Option Char → List Char → Bool
  | _, [] => false
  | prev, c :: cs =>
    (ws.any (fun w => boundaryLeft prev && isPrefixList w (c :: cs)
        && boundaryRight ((c :: cs).drop w.length)
        && searchWordsFrom ks (some (w.getLastD ' ')) ((c :: cs).drop w.length)))
      || searchWordsThen ws ks (some c) cs

/-- Three word groups in order, anything between:
`\b(g1)\b.*\b(g2)\b.*\b(g3)\b`. -/
def searchWords3 (g1 g2 g3 : List (List Char)) : Option Char → List Char → Bool
  | _, [] => false
  | prev, c :: cs =>
    (g1.any (fun w => boundaryLeft prev && isPrefixList w (c :: cs)
        && boundaryRight ((c :: cs).drop w.length)
        && searchWordsThen g2 g3 (some (w.getLastD ' ')) ((c :: cs).drop w.length)))
      || searchWords3 g1 g2 g3 (some c) cs

/-- The `delivery fees? | delivery` alternation, in the regex's order. -/
def deliveryAlts : List (List Char) :=
  [("delivery fees").data, ("delivery fee").data, ("delivery").data]

/-- The disjunctive `delivery … or … tip` pattern of
`_extract_feature_flags`, in both orders. -/
def deliveryOrTipPattern (ql : List Char) : Bool :=
  searchWords3 deliveryAlts [("or").data] [("tips").data, ("tip").data] none ql
    || searchWords3 [("tips").data, ("tip").data] [("or").data] deliveryAlts none ql

/-- The parsed feature-flag set. -/
structure FeatureFlags where
  has_warranty : Bool
  is_return : Bool
  has_tip : Bool
  has_discounts : Bool
  has_delivery_fee : Bool
  feature_any_of : Option (List String)
deriving DecidableEq, Repr

/-- `_extract_feature_flags`. -/
def extractFeatureFlags (q : String) : FeatureFlags :=
  let ql := lowerChars q.data
  let warranty := containsSub (("warranty").data) ql
  let ret := searchWordsFrom
    [("return").data, ("refund").data, ("refunded").data, ("returned").data] none ql
  let delivery := containsSub (("delivery fee").data) ql || containsSub (("delivery fees").data) ql
  let tip := wordSearch (("tip").data) ql
  if delivery && tip && deliveryOrTipPattern ql then
    ⟨warranty, ret, false, false, false, some [("has_delivery_fee"), ("has_tip")]⟩
  else
    ⟨warranty, ret, tip, wordSearch (("discount").data) ql, delivery, none⟩

/-- `_extract_location`: the two hardcoded city checks. -/
def extractLocation (q : String) : Option (String × String) :=
  let ql := lowerChars q.data
  if containsSub (("san francisco").data) ql then some (("San Francisco"), ("CA"))
  else if containsSub (("daly city").data) ql then some (("Daly City"), ("CA"))
  else none

/-- The amount matched at a `$` sign: `\d+(?:\.\d{2})?` as an exact
rational (the source converts each match to `float`). -/
def dollarValueAt (rest : List Char) : Option ℚ :=
  let ds := rest.takeWhile Char.isDigit
  if ds.length = 0 then none
  else
    let whole : ℚ := ((ds.foldl (fun a d => a * 10 + digitVal d) 0 : Nat) : ℚ)
    match rest.drop ds.length with
    | '.' :: a :: b :: _ =>
      if a.isDigit && b.isDigit then
        some (whole + (((10 * digitVal a + digitVal b : Nat) : ℚ) / 100))
      else some whole
    | _ => some whole

/-- All `\$(\d+(?:\.\d{2})?)` matches in order (`re.findall`).  Scanning
resumes right after the `$` sign: the matched span contains no further
`$`, so this is the same match list as resuming after the whole match. -/
def dollarAmounts : List Char → List ℚ
  | [] => []
  | c :: rest =>
    if c = '$' then
      match dollarValueAt rest with
      | some v => v :: dollarAmounts rest
      | none => dollarAmounts rest
    else dollarAmounts rest

/-- `_extract_amounts`: direction keywords choose min or max; the loop
leaves the last matched amount in the chosen slot. -/
def extractAmounts (q : String) : Option ℚ × Option ℚ :=
  let ql := lowerChars q.data
  let vals := dollarAmounts q.data
  let overKw := containsSub (("over").data) ql || containsSub (("more than").data) ql
    || containsSub (("above").data) ql
  let underKw := containsSub (("under").data) ql || containsSub (("less than").data) ql
    || containsSub (("below").data) ql
  match vals.getLast? with
  | none => (none, none)
  | some v =>
    if overKw then (some v, none)
    else if underKw then (none, some v)
    else (none, none)

/-- `semantic_mappings` in dict order. -/
def semanticMappings : List (String × List String) :=
  [(("health_related"), [("pharmacy"), ("health"), ("medicine"), ("vitamin"), ("supplement")]),
   (("treats"), [("candy"), ("chocolate"), ("ice cream"), ("cake"), ("cookie"), ("donut"),
     ("dessert"), ("sweet")]),
   (("coffee_shops"), [("coffee"), ("starbucks"), ("dunkin"), ("cafe"), ("latte"), ("espresso")]),
   (("restaurants"), [("restaurant"), ("burger"), ("pizza"), ("sandwich"), ("salad"),
     ("pasta"), ("steak")])]

/-- Keep the first occurrence of each element (`list(set(…))` up to Python's
unspecified set order; only membership is ever used downstream). -/
def dedupKeepFirst : List String → List String
  | [] => []
  | x :: xs => x :: (dedupKeepFirst (xs.filter (fun y => y ≠ x)))
termination_by s => s.length
decreasing_by
  simp
  exact Nat.lt_succ_of_le (List.length_filter_le _ _)

/-- `_extract_semantic_categories`. -/
def extractSemanticCategories (q : String) : List String :=
  let ql := lowerChars q.data
  dedupKeepFirst
    ((semanticMappings.filter (fun p =>
        containsSub ((p.1.data.map (fun c => if c = '_' then ' ' else c))) ql
          || p.2.any (fun kw => containsSub kw.data ql))).flatMap (fun p => p.2))

/-- `_extract_aggregation_type`: sum keywords, then average, then count. -/
def extractAggregationType (q : String) : Option String :=
  let ql := lowerChars q.data
  if [("total"), ("sum"), ("add up"), ("how much"), ("spent")].any
      (fun kw => containsSub kw.data ql) then some ("sum")
  else if [("average"), ("avg")].any (fun kw => containsSub kw.data ql) then some ("average")
  else if containsSub (("count").data) ql || containsSub (("how many").data) ql then
    some ("count")
  else none

/-- `replace(hour=h, minute=mi, second=s)` — the microsecond field is kept
(the parser's date branches never set it). -/
def pyReplaceHMS (t : PyDateTime) (h mi s : Nat) : PyDateTime :=
  replaceTod t ((h * 3600 + mi * 60 + s) * 1000000 + t.tod % 1000000)

/-- The parser's single-day range: `replace(hour=0, minute=0, second=0)` to
`replace(hour=23, minute=59, second=59)` — unlike the resolver it leaves
the microsecond field alone, so the end is 23:59:59.000000. -/
def parserSingleDay (t : PyDateTime) : PyDateTime × PyDateTime :=
  (pyReplaceHMS t 0 0 0, pyReplaceHMS t 23 59 59)

/-- Result of `_extract_dates` in `query_parser.py`: a concrete range or a
coarse month/year filter. -/
structure ParserDates where
  date_range : Option (PyDateTime × PyDateTime)
  date_filter : Option (Nat × Option Nat)
deriving DecidableEq, Repr

/-- Embedded `QueryParser._extract_dates`.  `now` is the reference date the
source reads from `datetime.now()` or the `RECEIPT_REFERENCE_DATE`
environment override.  The `datetime` constructor calls are unguarded in
the source, so calendar-invalid matches raise out of the function. -/
def parserExtractDates (now : PyDateTime) (q : String) : Except PyExc ParserDates :=
  let ql := lowerChars q.data
  match isoScan ql with
  | some (y, m, d) =>
    match pyDatetime (y : Int) m d with
    | .error e => .error e
    | .ok t => .ok ⟨some (parserSingleDay t), none⟩
  | none =>
  match slashScan ql with
  | some (m, d, y) =>
    let y2 : Nat := if y < 100 then y + 2000 else y
    match pyDatetime (y2 : Int) m d with
    | .error e => .error e
    | .ok t => .ok ⟨some (parserSingleDay t), none⟩
  | none =>
  match textualScan parserMonthsSorted ql with
  | some (m, d, yOpt) =>
    let y : Int :=
      match yOpt with
      | some y => (y : Int)
      | none => if now.month < m then now.year - 1 else now.year
    match pyDatetime y m d with
    | .error e => .error e
    | .ok t => .ok ⟨some (parserSingleDay t), none⟩
  | none =>
  match monthFind parserMonths ql with
  | some m => .ok ⟨none, some (m, yearScan q.data)⟩
  | none =>
  if containsSub (("last week").data) ql then
    match addDelta now (-7) 0 with
    | .error e => .error e
    | .ok s => .ok ⟨some (s, now), none⟩
  else if containsSub (("last month").data) ql then
    match addDelta (replaceDay now 1) (-30) 0 with
    | .error e => .error e
    | .ok s0 => .ok ⟨some (replaceDay s0 1, replaceDay now 1), none⟩
  else if containsSub (("yesterday").data) ql then
    match addDelta now (-1) 0 with
    | .error e => .error e
    | .ok t => .ok ⟨some (parserSingleDay t), none⟩
  else if containsSub (("this week").data) ql then
    match addDelta now (-(pyWeekday now : Int)) 0 with
    | .error e => .error e
    | .ok s => .ok ⟨some (pyReplaceHMS s 0 0 0, now), none⟩
  else if containsSub (("this month").data) ql then
    .ok ⟨some (pyReplaceHMS (replaceDay now 1) 0 0 0, now), none⟩
  else
    .ok ⟨none, none⟩

/-- The character class `[A-Za-z0-9\s\.\&]` of the merchant capture. -/
def isMerchClass (c : Char) : Bool :=
  c.isAlpha || c.isDigit || isPySpace c || c == '.' || c == '&'

/-- Keywords at which a captured merchant phrase is truncated
(`re.split` pattern of `_extract_merchants`). -/
def merchantStopWords : List (List Char) :=
  [("in").data, ("during").data, ("for").data, ("last").data, ("this").data,
   ("past").data, ("yesterday").data, ("on").data, ("over").data, ("under").data,
   ("with").data, ("about").data]

/-- Does the split pattern `\s+(?:stopword)\s+` (case-insensitive) match at
the head of `s`? -/
def candSplitHere (s : List Char) : Bool :=
  let sp := s.takeWhile isPySpace
  decide (1 ≤ sp.length) && merchantStopWords.any (fun kw =>
    let r := s.drop sp.length
    isPrefixList kw (lowerChars r)
      && decide (1 ≤ ((r.drop kw.length).takeWhile isPySpace).length))

/-- Truncate a captured phrase at the first stop-word clause. -/
def candTruncate : List Char → List Char
  | [] => []
  | c :: rest => if candSplitHere (c :: rest) then [] else c :: candTruncate rest

/-- `candidate.rstrip('.,;!?')`. -/
def rstripPunct (s : List Char) : List Char :=
  (s.reverse.dropWhile (fun c => c == '.' || c == ',' || c == ';' || c == '!' || c == '?')).reverse

/-- Leftmost capture of `alts\s+([A-Z][A-Za-z0-9\s\.\&]+)`: `withBound`
requires a word boundary before the alternation (the first prepositional
pattern has `\b`, the `receipts? from` pattern does not). -/
def prepCapture (alts : List (List Char)) (withBound : Bool) :
    Option Char → List Char → Option (List Char)
  | _, [] => none
  | prev, c :: cs =>
    match firstSome (fun alt =>
      if (!withBound || boundaryLeft prev) && isPrefixList alt (c :: cs) then
        let r1 := (c :: cs).drop alt.length
        let sp := r1.takeWhile isPySpace
        if sp.length = 0 then none
        else
          match r1.drop sp.length with
          | [] => none
          | d :: ds =>
            if 'A' ≤ d && d ≤ 'Z' then
              let run := ds.takeWhile isMerchClass
              if run.length = 0 then none else some (d :: run)
            else none
      else none) alts with
    | some cand => some cand
    | none => prepCapture alts withBound (some c) cs

/-- Post-process one captured phrase: truncate, strip punctuation, keep
only if longer than 2 characters. -/
def processCandidate (cand : List Char) : List String :=
  let c2 := rstripPunct (candTruncate cand)
  if 2 < c2.length then [String.mk c2] else []

/-- The broad known-chain list (a Python set literal; its iteration order
is unspecified, and only membership survives the final `list(set(…))`,
so the written order is used). -/
def knownChains : List String :=
  [("target"), ("walmart"), ("starbucks"), ("amazon"), ("costco"), ("cvs"),
   ("walgreens"), ("whole foods"), ("best buy"), ("safeway"), ("philz"),
   ("mcdonalds"), ("trader joes"), ("home depot"), ("lowes"), ("nike"),
   ("apple"), ("uber"), ("lyft"), ("doordash"), ("instacart")]

/-- Embedded `QueryParser._extract_merchants`: prepositional captures on
the original (cased) query, then word-bounded known chains on the
lowercased one, deduplicated. -/
def extractMerchants (q : String) : List String :=
  let ql := lowerChars q.data
  let p1 := prepCapture
    [("at").data, ("from").data, ("to").data, ("spent at").data,
     ("visited").data, ("bought at").data] true none q.data
  let p2 := prepCapture [("receipts from").data, ("receipt from").data] false none q.data
  let fromPreps :=
    (match p1 with
     | some cand => processCandidate cand
     | none => []) ++
    (match p2 with
     | some cand => processCandidate cand
     | none => [])
  let chains := knownChains.filter (fun chain => wordSearch chain.data ql)
  dedupKeepFirst (fromPreps ++ chains)

/-- Structured output of the LLM enrichment oracle
(`_get_llm_parsing`; `{}` on any failure). -/
structure LlmParse where
  merchants : List String
  date_range : Option (PyDateTime × PyDateTime)
  aggregation : Option String
deriving DecidableEq, Repr

/-- The oracle instantiation returning no information: what the source
produces whenever the network call fails (and the modelling used for the
claims, which fix the fallback to contribute nothing). -/
def llmNoInfo : String → LlmParse :=
  fun _ => ⟨[], none, none⟩

/-- The structured intent produced by `QueryParser.parse` (a plain dict in
the source; absent keys are `none` or `[]` here). -/
structure Params where
  original_query : String
  query_type : String
  metric : String
  date_range : Option (PyDateTime × PyDateTime)
  date_filter : Option (Nat × Option Nat)
  merchants : List String
  categories : List String
  payment_method : Option String
  card_network : Option String
  flags : FeatureFlags
  location : Option (String × String)
  min_amount : Option ℚ
  max_amount : Option ℚ
  semantic_categories : List String
  aggregation : Option String
  sum_basis : String
deriving DecidableEq, Repr

/-- `_extract_sum_basis`, applied to the almost-complete parameter set. -/
def extractSumBasis (p : Params) : String :=
  let ql := lowerChars p.original_query.data
  if p.metric = ("tax") then ("receipts")
  else if p.metric = ("subtotal") then ("receipts")
  else if p.query_type = ("category") || p.query_type = ("item_specific") then ("items")
  else if p.categories ≠ [] then ("items")
  else if [("items"), ("buy"), ("bought"), ("purchase"), ("purchases"),
      ("what did i buy")].any (fun kw => containsSub kw.data ql) then ("items")
  else ("receipts")

/-- Embedded `QueryParser.parse`: rule-based extraction, the LLM
enrichment for missing merchants/date range (rules always win), and the
final sum-basis resolution.  Exceptions of `_extract_dates` propagate:
`parse` installs no handler around it. -/
def parseQuery (llm : String → LlmParse) (now : PyDateTime) (q : String) :
    Except PyExc Params :=
  let query_type := classifyQuery q
  let metric := extractMetric q
  match parserExtractDates now q with
  | .error e => .error e
  | .ok pd =>
    let merchants := extractMerchants q
    let categories := extractCategories q
    let pay := extractPaymentDetails q
    let flags := extractFeatureFlags q
    let loc := extractLocation q
    let amts := extractAmounts q
    let semCats := extractSemanticCategories q
    let agg := extractAggregationType q
    let lp := if merchants = [] || pd.date_range = none then llm q else ⟨[], none, none⟩
    let merchants2 := if lp.merchants ≠ [] && merchants = [] then lp.merchants else merchants
    let dateRange2 := if lp.date_range ≠ none && pd.date_range = none then lp.date_range
      else pd.date_range
    let agg2 :=
      match lp.aggregation with
      | some a =>
        if (a = ("sum") || a = ("average") || a = ("count")) && agg = none then some a else agg
      | none => agg
    let p0 : Params :=
      ⟨q, query_type, metric, dateRange2, pd.date_filter, merchants2, categories,
       pay.1, pay.2, flags, loc, amts.1, amts.2, semCats, agg2, ("receipts")⟩
    .ok { p0 with sum_basis := extractSumBasis p0 }

/-! ## Query Engine and Aggregation Auditor

Embedding of `QueryEngine` (`src/query/query_engine.py`).  The vector
store is the `searchFn` oracle; the parser is the `parseFn` argument
(instantiated with `parseQuery` for concrete runs).  The state threaded
through is the parser's `temporal_resolver` attribute: `QueryParser.__init__`
assigns only `query_patterns` and `semantic_mappings`, so on a freshly
constructed engine the attribute does not exist (`none`) and reading
`self.parser.temporal_resolver` raises `AttributeError`. -/

/-- One retrieved metadata record (the `metadata` dict of a search hit). -/
structure EvidenceMeta where
  receipt_id : Option String
  chunk_type : Option String
  merchant_name : Option String
  transaction_date : Option String
  total_amount : Option ℚ
  tax_amount : Option ℚ
  tip_amount : Option ℚ
  subtotal : Option ℚ
  item_name : Option String
  item_price : Option ℚ
  item_category : Option String
  filename : Option String
deriving DecidableEq, Repr

/-- An evidence record carrying only a receipt id and a total. -/
def receiptTotalMeta (rid : String) (total : ℚ) : EvidenceMeta :=
  ⟨some rid, some ("receipt_summary"), none, none, some total,
   none, none, none, none, none, none, none⟩

/-- The deterministic audit's output dict: `count` plus, for a recognized
aggregation type, `value` (the source adds no other key — in particular no
`verified` key is ever set). -/
structure AuditOut where
  count : Nat
  value : Option ℚ
deriving DecidableEq, Repr

/-- The receipt-deduplication and item-collection loop of
`_perform_aggregation_audit`: one metadata entry per distinct
`receipt_id` (the first chunk wins, exactly as the dict insertion), and
every `item_detail` row when the basis is items. -/
def auditCollect (basis : String) :
    List EvidenceMeta → List (Option String × EvidenceMeta) → List EvidenceMeta →
    List (Option String × EvidenceMeta) × List EvidenceMeta
  | [], uniq, items => (uniq, items)
  | m :: rest, uniq, items =>
    let uniq2 := if uniq.any (fun p => p.1 = m.receipt_id) then uniq
      else uniq ++ [(m.receipt_id, m)]
    let items2 := if basis = ("items") && m.chunk_type = some ("item_detail") then
      items ++ [m] else items
    auditCollect basis rest uniq2 items2

/-- Metric-to-field selection of the audit (default `total_amount`). -/
def metricField (metric : String) (m : EvidenceMeta) : Option ℚ :=
  if metric = ("tax") then m.tax_amount
  else if metric = ("tip") then m.tip_amount
  else if metric = ("subtotal") then m.subtotal
  else m.total_amount

/-- The value list the audit computes: the chosen metric field over the
per-receipt deduplication when the basis is receipts, the per-item price
over every item row otherwise (`None` entries are dropped, exactly the
`is not None` filters of the comprehensions). -/
def auditValues (params : Params) (results : List EvidenceMeta) : List ℚ :=
  if params.sum_basis = ("receipts") then
    ((auditCollect params.sum_basis results [] []).1.map Prod.snd).filterMap
      (metricField params.metric)
  else
    (auditCollect params.sum_basis results [] []).2.filterMap (fun m => m.item_price)

/-- Embedded `_perform_aggregation_audit`: deterministic recomputation over
deduplicated receipts or item rows; `none` when there is no aggregation
type or no usable values (the Python `None`). -/
def performAudit (params : Params) (results : List EvidenceMeta) : Option AuditOut :=
  match params.aggregation with
  | none => none
  | some aggType =>
    if auditValues params results = [] then none
    else
      some ⟨(auditValues params results).length,
        if aggType = ("sum") then some (auditValues params results).sum
        else if aggType = ("average") then
          some ((auditValues params results).sum / ((auditValues params results).length : ℚ))
        else if aggType = ("count") then some (((auditValues params results).length : Nat) : ℚ)
        else none⟩

/-- The metadata filter the engine hands to the retrieval capability
(`_build_search_filters`): the exact predicate tree is flattened to its
components. -/
structure SearchFilters where
  merchant_eq : Option String
  merchant_in : Option (List String)
  ts : Option (Int × Int)
  category_or : Option (List String)
  feature_or : Option (List String)
  combined_and : Bool
deriving DecidableEq, Repr

/-- Embedded `_build_search_filters`; returns `none` when no filter clause
was produced (the source returns `None` for an empty dict). -/
def buildSearchFilters (params : Params) : Option SearchFilters :=
  let mEq := match params.merchants with
    | [m] => some (normalizeMerchantName m)
    | _ => none
  let mIn := match params.merchants with
    | [] => none
    | [_] => none
    | ms => some (ms.map normalizeMerchantName)
  let ts := params.date_range.map (fun p => (epochSeconds p.1, epochSeconds p.2))
  let catOr := if params.categories = [] then none else some params.categories
  let featOr := params.flags.feature_any_of
  if params.merchants = [] && params.date_range = none && params.categories = []
      && params.flags.feature_any_of = none then
    none
  else
    some ⟨mEq, mIn, ts, catOr, featOr, catOr ≠ none && featOr ≠ none⟩

/-- The externally observable calls the engine makes while processing one
query: the retrieval call with its results, a run of the aggregation
auditor, and the attempt to call the answer generator. -/
inductive EngineEvent
  | searchCall (results : List EvidenceMeta)
  | auditRun
  | generateAttempt
deriving DecidableEq, Repr

/-- The slice of `QueryResult` the reachable paths of `query` construct:
both terminal results carry no receipts, items or metadata. -/
structure QueryResultM where
  answer : String
  confidence : ℚ
  query_type : String
deriving DecidableEq, Repr

/-- The generic top-level error result of `query`'s `except` handler. -/
def internalErrorResult : QueryResultM :=
  ⟨("An internal error occurred while processing your request."), 0, ("error")⟩

/-- The fail-fast result for zero retrieval hits. -/
def couldNotFindResult (queryType : String) : QueryResultM :=
  ⟨("I couldn\x27t find any receipts matching those criteria."), 0, queryType⟩

/-- The parser state on a freshly constructed engine: `QueryParser.__init__`
(lines 30-76 of `query_parser.py`) assigns only `query_patterns` and
`semantic_mappings`, never `temporal_resolver`, so the attribute is absent. -/
def queryParserResolverAttr : Option PyDateTime := none

/-- Continuation of `query` after a successful parse: build filters, run
the retrieval capability, fail fast on zero hits, audit when the parsed
type is `aggregation`, then attempt answer generation.  The generation
call `self.generator.generate(query=…, context=…, query_params=…,
audit_result=…)` passes keyword arguments `context` and `audit_result`
that `AnswerGenerator.generate(self, query, results, query_params)` does
not accept (`answer_generator.py` line 74), so it raises `TypeError`
before the generator body runs; no event beyond the attempt is emitted
and the result-assembly lines below it are unreachable. -/
def engineProceed (searchFn : String → Option SearchFilters → List EvidenceMeta)
    (q : String) (st : Option PyDateTime) (params : Params) :
    Except (PyExc × Option PyDateTime × List EngineEvent)
      (QueryResultM × Option PyDateTime × List EngineEvent) :=
  if searchFn q (buildSearchFilters params) = [] then
    .ok (couldNotFindResult params.query_type, st,
         [EngineEvent.searchCall (searchFn q (buildSearchFilters params))])
  else
    .error (.typeError, st,
      (if params.query_type = ("aggregation") then
        [EngineEvent.searchCall (searchFn q (buildSearchFilters params)), EngineEvent.auditRun]
       else
        [EngineEvent.searchCall (searchFn q (buildSearchFilters params))])
        ++ [EngineEvent.generateAttempt])

/-- Body of `QueryEngine.query` inside its `try`: install the latest
transaction timestamp as the resolver's reference date (an attribute read
that raises when the attribute is absent), parse, restore the reference
only on the success path (lines 66-67 run only when `parse` returns), and
continue.  Failures carry the parser state and events at the raise. -/
def engineQueryAux (resolverAttr : Option PyDateTime) (latest : Option PyDateTime)
    (parseFn : String → Except PyExc Params)
    (searchFn : String → Option SearchFilters → List EvidenceMeta)
    (q : String) :
    Except (PyExc × Option PyDateTime × List EngineEvent)
      (QueryResultM × Option PyDateTime × List EngineEvent) :=
  match latest with
  | some t =>
    match resolverAttr with
    | none => .error (.attributeError, none, [])
    | some orig =>
      match parseFn q with
      | .error e => .error (e, some t, [])
      | .ok params => engineProceed searchFn q (some orig) params
  | none =>
    match parseFn q with
    | .error e => .error (e, resolverAttr, [])
    | .ok params => engineProceed searchFn q resolverAttr params

/-- Embedded `QueryEngine.query`: the `try` body above with the top-level
`except` handler that converts any exception into the generic internal
error result, leaving the parser state as it was at the raise. -/
def engineQuery (resolverAttr : Option PyDateTime) (latest : Option PyDateTime)
    (parseFn : String → Except PyExc Params)
    (searchFn : String → Option SearchFilters → List EvidenceMeta)
    (q : String) : QueryResultM × Option PyDateTime × List EngineEvent :=
  match engineQueryAux resolverAttr latest parseFn searchFn q with
  | .ok r => r
  | .error (_, st, evs) => (internalErrorResult, st, evs)

/-! ## Shared lemmas -/

/-- A `firstSome` hit comes from some list element. -/
theorem firstSome_mem {α β : Type} (f : α → Option β) (l : List α) (b : β)
    (h : firstSome f l = some b) : ∃ a ∈ l, f a = some b := by
  induction l with
  | nil => simp [firstSome] at h
  | cons x xs ih =>
    unfold firstSome at h
    cases hx : f x with
    | some v =>
      rw [hx] at h
      simp at h
      exact ⟨x, List.mem_cons_self x xs, by rw [hx, h]⟩
    | none =>
      rw [hx] at h
      obtain ⟨a, ha, hfa⟩ := ih h
      exact ⟨a, List.mem_cons_of_mem x ha, hfa⟩

/-- A month found in the resolver's table is between 1 and 12. -/
theorem monthFind_bounds (q : List Char) (m : Nat)
    (h : monthFind resolverMonths q = some m) : 1 ≤ m ∧ m ≤ 12 := by
  obtain ⟨p, hp, hfp⟩ := firstSome_mem _ _ _ h
  have hm : p.2 = m := by
    by_cases hw : wordSearch p.1.data q
    · simpa [hw] using hfp
    · simp [hw] at hfp
  subst hm
  fin_cases hp <;> omega

/-- Inversion of a successful `datetime` construction. -/
theorem pyDatetime_ok {y : Int} {m d : Nat} {t : PyDateTime}
    (h : pyDatetime y m d = .ok t) :
    t = ⟨y, m, d, 0⟩ ∧ 1 ≤ y ∧ y ≤ 9999 ∧ 1 ≤ m ∧ m ≤ 12 ∧ 1 ≤ d ∧ d ≤ daysInMonth y m := by
  unfold pyDatetime at h
  split at h
  · exact ⟨by injection h with h2; exact h2.symm, by assumption⟩
  · exact absurd h (by simp)

/-- C10: `normalize_merchant_name` keeps the suffix `supercenter` (so the
two Walmart spellings normalize differently) but strips the listed suffix
`store` after lowercasing (so the two Target spellings coincide). -/
theorem normalizeMerchant_suffix_examples :
    normalizeMerchantName ("Walmart Supercenter") ≠ normalizeMerchantName ("WALMART") ∧
    normalizeMerchantName ("Target Store") = normalizeMerchantName ("target") := by
  exact ⟨by decide, by decide⟩

/-- A fixed reference date used to instantiate concrete runs
(the embedded stand-in for `datetime.now()` and the environment override). -/
def refNow : PyDateTime := ⟨2024, 2, 7, 0⟩

/-- C8: `QueryParser.parse` raises for calendar-invalid dates that match a
date pattern syntactically: the unguarded `datetime` constructor in
`_extract_dates` raises `ValueError` on `2/30/2024` (slash branch) and on
`2024-13-45` (ISO branch), and `parse` installs no handler around it. -/
theorem parseQuery_raises_on_calendar_invalid_dates :
    parseQuery llmNoInfo refNow ("receipts from 2/30/2024") = .error .valueError ∧
    parserExtractDates refNow ("receipts from 2/30/2024") = .error .valueError ∧
    parserExtractDates refNow ("show me 2024-13-45") = .error .valueError := by
  exact ⟨rfl, rfl, rfl⟩

/-- C1: with any non-null latest transaction timestamp, `QueryEngine.query`
reads the non-existent `temporal_resolver` attribute of the freshly
constructed `QueryParser`, raising `AttributeError` before parse and
retrieval, and the top-level handler returns the generic internal-error
result (`query_type` error, confidence 0) whatever the query, parser
behaviour and search behaviour are. -/
theorem engineQuery_missing_resolver_attr_internal_error
    (t : PyDateTime) (parseFn : String → Except PyExc Params)
    (searchFn : String → Option SearchFilters → List EvidenceMeta) (q : String) :
    engineQueryAux queryParserResolverAttr (some t) parseFn searchFn q
      = .error (.attributeError, none, []) ∧
    engineQuery queryParserResolverAttr (some t) parseFn searchFn q
      = (internalErrorResult, none, []) := by
  exact ⟨rfl, rfl⟩

/-- A parser that raises, standing for any query whose parse fails. -/
def parseRaising : String → Except PyExc Params := fun _ => .error .valueError

/-- A reference date distinct from `refNow`, used as the stored reference. -/
def refOrig : PyDateTime := ⟨2024, 1, 1, 0⟩

/-- C2 (divergence): granting the engine a parser that does carry a
`temporal_resolver` attribute with reference `refOrig`, a run whose latest
timestamp is `refNow` and whose parse raises leaves the installed value
`refNow` in place: the restore on lines 66-67 of `query_engine.py` runs
only on the success path, and the final state is not the original. -/
theorem engineQuery_reference_not_restored_on_parse_failure :
    engineQuery (some refOrig) (some refNow) parseRaising (fun _ _ => []) ("q")
      = (internalErrorResult, some refNow, []) ∧ refNow ≠ refOrig := by
  exact ⟨rfl, by decide⟩

/-- The single evidence record used in concrete engine runs. -/
def evR1 : EvidenceMeta := receiptTotalMeta ("r1") (1484 / 100)

/-- A retrieval capability returning exactly one hit. -/
def evSearch : String → Option SearchFilters → List EvidenceMeta := fun _ _ => [evR1]



/-- C3 (divergence): the query `spent` parses with a non-null aggregation
(`sum`) but query type `general`, so the Aggregation Auditor never runs
even with a non-empty retrieval result; the query `average` parses with
query type `aggregation` and the auditor does run, but the following
generation call raises `TypeError` (keyword arguments `context` and
`audit_result` that `AnswerGenerator.generate` does not accept), so both
runs return the generic internal-error result and no audit ever reaches a
`QueryResult`'s metadata. -/
theorem engineQuery_audit_gate_and_generate_typeerror :
    parseQuery llmNoInfo refNow ("spent")
      = .ok ⟨("spent"), ("general"), ("total"), none, none, [], [], none, none,
          ⟨false, false, false, false, false, none⟩, none, none, none, [],
          some ("sum"), ("receipts")⟩ ∧
    engineQuery none none (parseQuery llmNoInfo refNow) evSearch ("spent")
      = (internalErrorResult, none,
         [EngineEvent.searchCall [evR1], EngineEvent.generateAttempt]) ∧
    engineQuery none none (parseQuery llmNoInfo refNow) evSearch ("average")
      = (internalErrorResult, none,
         [EngineEvent.searchCall [evR1], EngineEvent.auditRun, EngineEvent.generateAttempt]) := by
  refine ⟨by with_unfolding_all rfl, by with_unfolding_all rfl, by with_unfolding_all rfl⟩

/-- Appending a chunk whose `receipt_id` already occurs (in the processed
results or the accumulator) leaves the collection loop's output unchanged
when the basis is receipts. -/
theorem auditCollect_append_dup (results : List EvidenceMeta) (e : EvidenceMeta)
    (uniq : List (Option String × EvidenceMeta)) (items : List EvidenceMeta)
    (h : e.receipt_id ∈ results.map (fun m => m.receipt_id)
         ∨ uniq.any (fun p => p.1 = e.receipt_id) = true) :
    auditCollect ("receipts") (results ++ [e]) uniq items
      = auditCollect ("receipts") results uniq items := by
  induction results generalizing uniq items with
  | nil =>
    rcases h with h | h
    · simp at h
    · simp [auditCollect, h]
  | cons m rest ih =>
    simp only [List.cons_append, auditCollect]
    apply ih
    rcases h with h | h
    · simp only [List.map_cons, List.mem_cons] at h
      rcases h with h | h
      · right
        split
        · rename_i hany
          simpa [h] using hany
        · simp [h]
      · left
        exact h
    · right
      split
      · exact h
      · rw [List.any_append]
        simp [h]

/-- When the aggregation is `sum` and values exist, the audit returns their
count and their sum. -/
theorem performAudit_sum (p : Params) (results : List EvidenceMeta)
    (hagg : p.aggregation = some ("sum"))
    (hv : auditValues p results ≠ []) :
    performAudit p results
      = some ⟨(auditValues p results).length, some (auditValues p results).sum⟩ := by
  unfold performAudit
  rw [hagg]
  simp [hv]

/-- The audit parameters of the specification's worked example:
`aggregation=sum`, `basis=receipts`. -/
def paramsSumReceipts : Params :=
  ⟨(""), ("aggregation"), ("total"), none, none, [], [], none, none,
   ⟨false, false, false, false, false, none⟩, none, none, none, [],
   some ("sum"), ("receipts")⟩

/-- The specification's evidence list: two chunks of receipt `r1` at 14.84
and one chunk of `r2` at 10.00. -/
def c4Evidence : List EvidenceMeta :=
  [receiptTotalMeta ("r1") (1484 / 100), receiptTotalMeta ("r1") (1484 / 100),
   receiptTotalMeta ("r2") 10]

/-- C4: on the worked example the Aggregation Auditor with basis receipts
and aggregation sum returns count 2 and value 24.84 (each receipt counted
once); in general, with basis receipts, appending another chunk of an
already-present receipt never changes the audit output. -/
theorem performAudit_receipts_dedup :
    performAudit paramsSumReceipts c4Evidence = some ⟨2, some (2484 / 100)⟩ ∧
    ∀ (p : Params) (results : List EvidenceMeta) (e : EvidenceMeta),
      p.sum_basis = ("receipts") →
      e.receipt_id ∈ results.map (fun m => m.receipt_id) →
      performAudit p (results ++ [e]) = performAudit p results := by
  constructor
  · have h1 : auditValues paramsSumReceipts c4Evidence = [1484 / 100, 10] := by
      with_unfolding_all rfl
    rw [performAudit_sum _ _ rfl (by rw [h1]; simp), h1]
    norm_num
  · intro p results e hb hm
    have hcol := auditCollect_append_dup results e [] [] (Or.inl hm)
    have hv : auditValues p (results ++ [e]) = auditValues p results := by
      unfold auditValues
      rw [hb, hcol]
    unfold performAudit
    rw [hv]

/-- Concrete instantiation of the general half of the dedup theorem: a
fourth chunk of `r1` leaves the audit output unchanged. -/
theorem performAudit_receipts_dedup_witness :
    performAudit paramsSumReceipts (c4Evidence ++ [receiptTotalMeta ("r1") (1484 / 100)])
      = performAudit paramsSumReceipts c4Evidence :=
  performAudit_receipts_dedup.2 paramsSumReceipts c4Evidence
    (receiptTotalMeta ("r1") (1484 / 100)) rfl (by simp [c4Evidence, receiptTotalMeta])

/-- The post-parse continuation succeeds only on the zero-hit branch: the
result is the fixed fail-fast answer, the state is untouched and the only
event is the empty retrieval call. -/
theorem engineProceed_ok (searchFn : String → Option SearchFilters → List EvidenceMeta)
    (q : String) (st : Option PyDateTime) (params : Params)
    (res : QueryResultM) (st2 : Option PyDateTime) (evs : List EngineEvent)
    (h : engineProceed searchFn q st params = .ok (res, st2, evs)) :
    res = couldNotFindResult params.query_type ∧ st2 = st
      ∧ evs = [EngineEvent.searchCall []] := by
  unfold engineProceed at h
  split at h
  · rename_i hz
    injection h with h2
    simp only [Prod.mk.injEq] at h2
    obtain ⟨hres, hst, hevs⟩ := h2
    refine ⟨hres.symm, hst.symm, ?_⟩
    rw [← hevs, hz]
  · exact absurd h (by simp)

/-- On the non-empty branch the continuation fails with the generation
`TypeError`, and its event list never contains an empty retrieval call. -/
theorem engineProceed_error_no_zero_call
    (searchFn : String → Option SearchFilters → List EvidenceMeta)
    (q : String) (st : Option PyDateTime) (params : Params)
    (ex : PyExc) (st2 : Option PyDateTime) (evs : List EngineEvent)
    (h : engineProceed searchFn q st params = .error (ex, st2, evs)) :
    EngineEvent.searchCall [] ∉ evs := by
  unfold engineProceed at h
  split at h
  · exact absurd h (by simp)
  · rename_i hnz
    injection h with h2
    simp only [Prod.mk.injEq] at h2
    obtain ⟨_, _, hevs⟩ := h2
    intro hmem
    rw [← hevs] at hmem
    split at hmem <;> simp at hmem <;> exact hnz hmem

/-- A successful run of the `try` body comes from the continuation. -/
theorem engineQueryAux_ok (resolverAttr latest : Option PyDateTime)
    (parseFn : String → Except PyExc Params)
    (searchFn : String → Option SearchFilters → List EvidenceMeta) (q : String)
    (r : QueryResultM × Option PyDateTime × List EngineEvent)
    (h : engineQueryAux resolverAttr latest parseFn searchFn q = .ok r) :
    ∃ st0 params, engineProceed searchFn q st0 params = .ok r := by
  unfold engineQueryAux at h
  cases latest with
  | some t =>
    cases resolverAttr with
    | none => exact absurd h (by simp)
    | some orig =>
      cases hp : parseFn q with
      | error e => rw [hp] at h; exact absurd h (by simp)
      | ok params => rw [hp] at h; exact ⟨some orig, params, h⟩
  | none =>
    cases hp : parseFn q with
    | error e => rw [hp] at h; exact absurd h (by simp)
    | ok params => rw [hp] at h; exact ⟨resolverAttr, params, h⟩

/-- A failing run of the `try` body never logs an empty retrieval call. -/
theorem engineQueryAux_error_no_zero_call (resolverAttr latest : Option PyDateTime)
    (parseFn : String → Except PyExc Params)
    (searchFn : String → Option SearchFilters → List EvidenceMeta) (q : String)
    (ex : PyExc) (st2 : Option PyDateTime) (evs : List EngineEvent)
    (h : engineQueryAux resolverAttr latest parseFn searchFn q = .error (ex, st2, evs)) :
    EngineEvent.searchCall [] ∉ evs := by
  unfold engineQueryAux at h
  cases latest with
  | some t =>
    cases resolverAttr with
    | none =>
      injection h with h2
      simp only [Prod.mk.injEq] at h2
      rw [← h2.2.2]
      simp
    | some orig =>
      cases hp : parseFn q with
      | error e =>
        rw [hp] at h
        injection h with h2
        simp only [Prod.mk.injEq] at h2
        rw [← h2.2.2]
        simp
      | ok params =>
        rw [hp] at h
        exact engineProceed_error_no_zero_call _ _ _ _ _ _ _ h
  | none =>
    cases hp : parseFn q with
    | error e =>
      rw [hp] at h
      injection h with h2
      simp only [Prod.mk.injEq] at h2
      rw [← h2.2.2]
      simp
    | ok params =>
      rw [hp] at h
      exact engineProceed_error_no_zero_call _ _ _ _ _ _ _ h

/-- C5: whenever a run of `QueryEngine.query` performed a retrieval call
that returned zero results, the returned result is the fixed fail-fast
answer with confidence 0, the auditor never ran and the generation call
was never attempted — for every parser behaviour, retrieval behaviour,
engine state and query. -/
theorem engineQuery_zero_results_fail_fast
    (resolverAttr latest : Option PyDateTime)
    (parseFn : String → Except PyExc Params)
    (searchFn : String → Option SearchFilters → List EvidenceMeta) (q : String)
    (res : QueryResultM) (st : Option PyDateTime) (evs : List EngineEvent)
    (hrun : engineQuery resolverAttr latest parseFn searchFn q = (res, st, evs))
    (hzero : EngineEvent.searchCall [] ∈ evs) :
    res.answer = ("I couldn\x27t find any receipts matching those criteria.") ∧
    res.confidence = 0 ∧
    EngineEvent.auditRun ∉ evs ∧ EngineEvent.generateAttempt ∉ evs := by
  unfold engineQuery at hrun
  cases haux : engineQueryAux resolverAttr latest parseFn searchFn q with
  | ok r =>
    rw [haux] at hrun
    have hr : r = (res, st, evs) := hrun
    obtain ⟨st0, params, hpr⟩ := engineQueryAux_ok _ _ _ _ _ _ haux
    rw [hr] at hpr
    obtain ⟨hres, _, hevs⟩ := engineProceed_ok _ _ _ _ _ _ _ hpr
    subst hres
    subst hevs
    refine ⟨rfl, rfl, by simp, by simp⟩
  | error e =>
    rw [haux] at hrun
    obtain ⟨ex, st2, evs2⟩ := e
    have hr : (internalErrorResult, st2, evs2) = (res, st, evs) := hrun
    simp only [Prod.mk.injEq] at hr
    rw [← hr.2.2] at hzero
    exact absurd hzero
      (engineQueryAux_error_no_zero_call _ _ _ _ _ _ _ _ haux)

/-- Concrete instantiation of the fail-fast theorem: a merchant query
against an empty index returns the fixed answer with confidence 0 and
neither audits nor attempts generation. -/
theorem engineQuery_zero_results_fail_fast_witness :
    (couldNotFindResult ("merchant")).answer
        = ("I couldn\x27t find any receipts matching those criteria.") ∧
    (couldNotFindResult ("merchant")).confidence = 0 ∧
    EngineEvent.auditRun ∉ [EngineEvent.searchCall []] ∧
    EngineEvent.generateAttempt ∉ [EngineEvent.searchCall []] :=
  engineQuery_zero_results_fail_fast none none (parseQuery llmNoInfo refNow)
    (fun _ _ => []) ("show me receipts from Walmart")
    (couldNotFindResult ("merchant")) none [EngineEvent.searchCall []]
    (by with_unfolding_all rfl) (by simp)

/-- Borrowing one microsecond from the first instant of month `m + 1`
lands on the last microsecond of month `m` of the same year. -/
theorem subOneMicro_month_first {y : Int} {m : Nat} (hm : 0 < m) :
    subOneMicro ⟨y, m + 1, 1, 0⟩ = .ok ⟨y, m, daysInMonth y m, maxTod⟩ := by
  unfold subOneMicro
  rw [if_neg (by simp), if_neg (by simp), if_pos (by simpa using hm)]
  simp

/-- Borrowing one microsecond from the first instant of January lands on
the last microsecond of December 31 of the previous year. -/
theorem subOneMicro_january_first {y : Int} (hy : 1 < y + 1) :
    subOneMicro ⟨y + 1, 1, 1, 0⟩ = .ok ⟨y, 12, 31, maxTod⟩ := by
  unfold subOneMicro
  rw [if_neg (by simp), if_neg (by simp), if_neg (by simp), if_pos (by simpa using hy)]
  simp

/-- C6: whenever a month name is found with no four-digit year anywhere in
the query and the month-only strategy produces a range, that range starts
at the first of the month at 00:00:00.000000 in the reference year minus
five, and ends at the last microsecond of that month in the reference
year — for every month including December, whose end construction rolls
over the year boundary. -/
theorem tryMonthOnly_widened (q : List Char) (now : PyDateTime) (m : Nat) (r : DateRange)
    (hm : monthFind resolverMonths q = some m)
    (hy : yearScan q = none)
    (hr : tryMonthOnly q now = .ok (some r)) :
    r.rangeStart = ⟨now.year - 5, m, 1, 0⟩ ∧
    r.rangeEnd = ⟨now.year, m, daysInMonth now.year m, maxTod⟩ := by
  have hb := monthFind_bounds q m hm
  unfold tryMonthOnly at hr
  simp only [hm, hy] at hr
  cases h1 : pyDatetime (now.year - 5) m 1 with
  | error e =>
    simp only [h1] at hr
    exact absurd hr (by simp)
  | ok s =>
    simp only [h1] at hr
    obtain ⟨hs, hy5, _⟩ := pyDatetime_ok h1
    by_cases h12 : m = 12
    · subst h12
      rw [if_pos rfl] at hr
      cases h2 : pyDatetime (now.year + 1) 1 1 with
      | error e =>
        simp only [h2] at hr
        exact absurd hr (by simp)
      | ok nxt =>
        simp only [h2] at hr
        obtain ⟨hn, hy1, _⟩ := pyDatetime_ok h2
        subst hn
        have h3 := subOneMicro_january_first (y := now.year) (by omega)
        simp only [h3, Except.ok.injEq, Option.some.injEq] at hr
        subst hr
        exact ⟨hs, rfl⟩
    · rw [if_neg h12] at hr
      cases h2 : pyDatetime now.year (m + 1) 1 with
      | error e =>
        simp only [h2] at hr
        exact absurd hr (by simp)
      | ok nxt =>
        simp only [h2] at hr
        obtain ⟨hn, _⟩ := pyDatetime_ok h2
        subst hn
        have h3 := subOneMicro_month_first (y := now.year) (m := m) (by omega)
        simp only [h3, Except.ok.injEq, Option.some.injEq] at hr
        subst hr
        exact ⟨hs, rfl⟩

/-- Concrete instantiation: `december` with no year against a reference in
February 2024 resolves to 2019-12-01T00:00:00.000000 through
2024-12-31T23:59:59.999999. -/
theorem tryMonthOnly_widened_witness :
    (⟨⟨2019, 12, 1, 0⟩, ⟨2024, 12, 31, maxTod⟩⟩ : DateRange).rangeStart
        = ⟨(2024 : Int) - 5, 12, 1, 0⟩ ∧
    (⟨⟨2019, 12, 1, 0⟩, ⟨2024, 12, 31, maxTod⟩⟩ : DateRange).rangeEnd
        = ⟨(2024 : Int), 12, daysInMonth 2024 12, maxTod⟩ := by
  have h := tryMonthOnly_widened (lowerChars (("show me december receipts").data)) refNow 12
    ⟨⟨2019, 12, 1, 0⟩, ⟨2024, 12, 31, maxTod⟩⟩
    (by with_unfolding_all rfl) (by with_unfolding_all rfl) (by with_unfolding_all rfl)
  exact h

/-- The `dateutil` oracle that always fails (every failure is caught). -/
def duNoInfo : String → Option PyDateTime := fun _ => none

/-- The LLM date-extraction oracle returning no information. -/
def llmDateNoInfo : String → Option (PyDateTime × PyDateTime) := fun _ => none

set_option maxRecDepth 8000 in
/-- C9: the holiday table computes Thanksgiving 2023 as the fourth
Thursday of November, 2023-11-23, and the resolver chain sends the query
`week before thanksgiving 2023` to the normalized range 2023-11-16
through 2023-11-22; the year is explicit in the query, and the same range
results under a second, very different reference date. -/
theorem thanksgiving_week_before_resolution :
    thanksgivingDate 2023 = .ok ⟨2023, 11, 23, 0⟩ ∧
    resolveDateRange duNoInfo llmDateNoInfo ("week before thanksgiving 2023") refNow
      = .ok (some ⟨⟨2023, 11, 16, 0⟩, ⟨2023, 11, 22, maxTod⟩⟩) ∧
    resolveDateRange duNoInfo llmDateNoInfo ("week before thanksgiving 2023") ⟨1999, 6, 30, 123456⟩
      = .ok (some ⟨⟨2023, 11, 16, 0⟩, ⟨2023, 11, 22, maxTod⟩⟩) := by
  refine ⟨by with_unfolding_all rfl, by with_unfolding_all rfl, by with_unfolding_all rfl⟩
